import Mathlib

/-!
Verification of the detection-to-alert pipeline of the NCCU server-room
monitor. Shallow embedding of the relevant Python code:

* src/src/core/camera.py        (FrameBuffer)
* src/src/core/sensors.py       (SmokeSensor / FlameSensor is_triggered,
                                 WaterSensor, SensorManager.check_alerts)
* src/src/core/monitor.py       (MonitorSystem alert cooldown, queueing,
                                 alert processing)
* src/src/alerts/alert_manager.py (AlertManager.send_alert)
* src/monitor_optimized.py      (OptimizedMonitorSystem alert queue and
                                 StorageManager.cleanup_by_size)
* src/monitor_daemon.py         (alert worker retry loop)
* src/storage_cleanup.py        (StorageCleanup.cleanup_by_size)

Timestamps (Python time.time floats) are modelled as integers (the code only orders and subtracts them), image
payloads as natural-number tokens, dictionaries as association lists in
which assignment prepends a shadowing entry (lookup-equivalent to the
Python dict update).
-/

namespace NCCU

/-! camera.py: FrameBuffer.

A frame dictionary carries the raw data and the capture timestamp. The
buffer is a deque with maxlen = max_size: appending past capacity drops
entries from the oldest end. -/

structure Frame where
  data : ℕ
  timestamp : ℤ
deriving DecidableEq

structure FrameBuffer where
  maxSize : ℕ
  frames : List Frame
deriving DecidableEq

/-- FrameBuffer.__init__: empty deque with the configured maxlen. -/
def FrameBuffer.init (maxSize : ℕ) : FrameBuffer :=
  { maxSize := maxSize, frames := [] }

/-- FrameBuffer.add_frame: deque append with maxlen semantics; when the
new length exceeds max_size the excess is discarded from the oldest end. -/
def FrameBuffer.addFrame (b : FrameBuffer) (f : Frame) : FrameBuffer :=
  let l := b.frames ++ [f]
  { b with frames := if b.maxSize < l.length then l.drop (l.length - b.maxSize) else l }

/-- FrameBuffer.get_frames: list(self.frames) is a fresh copy, oldest
first; with a count it is the slice of the last count entries (a Python
slice with negative start, which for count = 0 yields the whole list). -/
def FrameBuffer.getFrames (b : FrameBuffer) (count : Option ℕ := none) : List Frame :=
  match count with
  | none => b.frames
  | some c => if c = 0 then b.frames else b.frames.drop (b.frames.length - c)

/-! sensors.py: debounce logic of SmokeSensor.is_triggered and
FlameSensor.is_triggered (identical bodies), and SensorManager.check_alerts.

read_with_retry yields an optional boolean reading: none models a failed
read, some v a validated reading with value v. -/

structure DebounceState where
  threshold_count : ℕ
  consecutive_detections : ℕ
deriving DecidableEq

/-- SmokeSensor.is_triggered / FlameSensor.is_triggered: on a truthy
reading increment consecutive_detections, otherwise reset to 0; return
whether the count meets the threshold. -/
def isTriggered (s : DebounceState) (reading : Option Bool) : DebounceState × Bool :=
  let c : ℕ :=
    match reading with
    | some true => s.consecutive_detections + 1
    | _ => 0
  ({ s with consecutive_detections := c }, decide (s.threshold_count ≤ c))

/-- Repeated ticks of is_triggered over a list of readings, returning the
final state and the per-call results in order. -/
def isTriggeredRun (s : DebounceState) : List (Option Bool) → DebounceState × List Bool
  | [] => (s, [])
  | r :: rs =>
    let p := isTriggered s r
    let q := isTriggeredRun p.1 rs
    (q.1, p.2 :: q.2)

/-- Registered sensors as seen by SensorManager.check_alerts: smoke and
flame sensors carry debounce state, the water sensor carries none. -/
inductive Sensor where
  | debounce (id : String) (st : DebounceState)
  | water (id : String)
deriving DecidableEq

def Sensor.sid : Sensor → String
  | .debounce i _ => i
  | .water i => i

/-- One sensor of the check_alerts loop body: smoke and flame go through
is_triggered (stateful), the water sensor alerts on a single positive
reading of the current tick. -/
def checkAlertsStep (readings : String → Option Bool) : Sensor → Sensor × Bool
  | .debounce i st =>
    let p := isTriggered st (readings i)
    (.debounce i p.1, p.2)
  | .water i => (.water i, decide (readings i = some true))

/-- SensorManager.check_alerts: collect the ids of sensors in alert state
for this tick; the sensors evolve by their per-tick step. -/
def checkAlerts (readings : String → Option Bool) (sensors : List Sensor) :
    List String × List Sensor :=
  let stepped := sensors.map (checkAlertsStep readings)
  (stepped.filterMap (fun p => if p.2 then some p.1.sid else none),
   stepped.map Prod.fst)

/-! monitor.py: MonitorSystem. alert_cooldowns is a dict from sensor id to
last-fired timestamp; the alert queue holds alert_data dictionaries, which
contain only metadata (sensor id and firing timestamp), never frames. -/

/-- A Python dict assignment d[k] = v, modelled on an association list by
prepending a shadowing entry (lookup-equivalent to the dict update). -/
def dictSet (d : List (String × ℤ)) (k : String) (v : ℤ) : List (String × ℤ) :=
  (k, v) :: d

/-- d.get(k, default). -/
def dictGetD (d : List (String × ℤ)) (k : String) (v : ℤ) : ℤ :=
  (d.lookup k).getD v

/-- MonitorSystem._check_alert_cooldown: the last alert time defaults to 0
for a sensor that never fired; the alert may be sent when at least
cooldown_period has elapsed since then. -/
def checkAlertCooldown (cooldowns : List (String × ℤ)) (sensorId : String)
    (currentTime cooldownPeriod : ℤ) : Bool :=
  decide (cooldownPeriod ≤ currentTime - dictGetD cooldowns sensorId 0)

/-- The mutable state touched by MonitorSystem._handle_alerts: the
cooldown table and the pending alert queue of (sensor_id, timestamp)
alert_data records. -/
structure HState where
  cooldowns : List (String × ℤ)
  queue : List (String × ℤ)
deriving DecidableEq

/-- Loop body of MonitorSystem._handle_alerts for one sensor id: skip if
in cooldown, skip if the sensor is not registered, otherwise enqueue the
alert_data and set the cooldown entry to the current time in the same
step. -/
def handleAlertsStep (sensors : List String) (cooldownPeriod currentTime : ℤ)
    (st : HState) (sensorId : String) : HState :=
  if ¬ checkAlertCooldown st.cooldowns sensorId currentTime cooldownPeriod then st
  else if sensorId ∉ sensors then st
  else { cooldowns := dictSet st.cooldowns sensorId currentTime,
         queue := st.queue ++ [(sensorId, currentTime)] }

/-- MonitorSystem._handle_alerts over the list of alerting sensor ids. -/
def handleAlerts (sensors : List String) (cooldownPeriod : ℤ) (st : HState)
    (alertSensors : List String) (currentTime : ℤ) : HState :=
  alertSensors.foldl (handleAlertsStep sensors cooldownPeriod currentTime) st

/-- One iteration of MonitorSystem._process_alerts: dequeue the next
alert_data and attach as evidence the images fetched from the camera
buffer at this moment (camera_manager.get_buffer_images, which calls
FrameBuffer.get_frames with no count); buf is the buffer contents at
processing time. -/
def processAlert (buf : FrameBuffer) (queue : List (String × ℤ)) :
    Option ((String × ℤ) × List Frame) × List (String × ℤ) :=
  match queue with
  | [] => (none, queue)
  | a :: rest => (some (a, buf.getFrames), rest)

/-! alert_manager.py: AlertManager.send_alert. The manager keeps its own
cooldown table (no entry means never sent) and a stored alert list. The
external email sender either succeeds or raises; emailOk models that
outcome. -/

structure AMAlert where
  alert_type : String
  sent : Bool
  error : Option String
deriving DecidableEq

structure AMState where
  cooldowns : List (String × ℤ)
  alerts : List AMAlert
deriving DecidableEq

/-- AlertManager._check_cooldown: True when no entry exists, otherwise
when at least the cooldown delta has elapsed since the last send. -/
def amCheckCooldown (cooldowns : List (String × ℤ)) (alertType : String)
    (now cooldownDelta : ℤ) : Bool :=
  match cooldowns.lookup alertType with
  | none => true
  | some lastSent => decide (cooldownDelta ≤ now - lastSent)

/-- AlertManager.send_alert: in cooldown or without recipients nothing is
stored and False is returned; on a successful send the alert is stored as
sent and the cooldown entry is set; on a raised email error the alert is
stored with its error and the cooldown entry is left untouched. -/
def sendAlert (st : AMState) (alertType : String) (recipients : List String)
    (now cooldownDelta : ℤ) (emailOk : Bool) : AMState × Bool :=
  if ¬ amCheckCooldown st.cooldowns alertType now cooldownDelta then (st, false)
  else if recipients.isEmpty then (st, false)
  else if emailOk then
    ({ cooldowns := dictSet st.cooldowns alertType now,
       alerts := st.alerts ++ [{ alert_type := alertType, sent := true, error := none }] },
     true)
  else
    ({ st with
       alerts := st.alerts ++
         [{ alert_type := alertType, sent := false, error := some "EmailException" }] },
     false)

/-! monitor_optimized.py: OptimizedMonitorSystem. email_queue is a bounded
queue.Queue(maxsize = 10); last_alert_time is the per-event-type cooldown
table; should_send_alert records the timestamp as soon as it grants
eligibility, before any enqueue is attempted. -/

structure EmailData where
  event_type : String
  zip_bytes : ℕ
  timestamp : ℤ
deriving DecidableEq

structure OptState where
  lastAlert : List (String × ℤ)
  emailQueue : List EmailData
deriving DecidableEq

/-- queue.Queue(maxsize=10) from OptimizedMonitorSystem.__init__. -/
def emailQueueMax : ℕ := 10

/-- OptimizedMonitorSystem.should_send_alert: eligible when the cooldown
has elapsed since the recorded time (0 when the event type never fired);
on eligibility the entry is updated to the current time immediately. -/
def shouldSendAlert (st : OptState) (eventType : String) (now cooldown : ℤ) :
    OptState × Bool :=
  if cooldown ≤ now - dictGetD st.lastAlert eventType 0 then
    ({ st with lastAlert := dictSet st.lastAlert eventType now }, true)
  else (st, false)

inductive QueueOutcome where
  | skippedCooldown
  | queued
  | droppedFull
deriving DecidableEq

/-- OptimizedMonitorSystem.queue_alert_email: skip when should_send_alert
denies; otherwise put_nowait the email data, and when the queue is full
catch queue.Full, log a warning and drop the alert. -/
def queueAlertEmail (st : OptState) (eventType : String) (zipBytes : ℕ)
    (now cooldown : ℤ) : OptState × QueueOutcome :=
  let p := shouldSendAlert st eventType now cooldown
  if ¬ p.2 then (p.1, .skippedCooldown)
  else if emailQueueMax ≤ p.1.emailQueue.length then (p.1, .droppedFull)
  else ({ p.1 with
          emailQueue := p.1.emailQueue ++
            [{ event_type := eventType, zip_bytes := zipBytes, timestamp := now }] },
        .queued)

/-! monitor_daemon.py: the retry loop of _send_alert_internal and the
background _alert_worker. The mail collaborator is a function from the
attempt index to success; a delay of 5 seconds is slept between
consecutive failed attempts. -/

structure SendOutcome where
  attempts : ℕ
  delays : List ℤ
  success : Bool
deriving DecidableEq

/-- The retry for-loop of _send_alert_internal: at each attempt index i
with rem+1 indices remaining, a success breaks out; a failure on a
non-final attempt sleeps 5 seconds and retries; a failure on the final
attempt re-raises, which the enclosing handler logs as a failed send. -/
def attemptSend (mailer : ℕ → Bool) : ℕ → ℕ → SendOutcome
  | _, 0 => { attempts := 0, delays := [], success := false }
  | i, rem + 1 =>
    if mailer i then { attempts := 1, delays := [], success := true }
    else if rem = 0 then { attempts := 1, delays := [], success := false }
    else
      let o := attemptSend mailer (i + 1) rem
      { attempts := o.attempts + 1, delays := 5 :: o.delays, success := o.success }

/-- retry_count = 3 in _send_alert_internal. -/
def retryCount : ℕ := 3

/-- _send_alert_internal: run the retry loop from attempt 0; any final
failure is caught and logged, never propagated to the worker. -/
def sendAlertInternal (mailer : ℕ → Bool) : SendOutcome :=
  attemptSend mailer 0 retryCount

/-- _alert_worker: consume queued alert items in order until the none
sentinel; each item is handed to _send_alert_internal, whose outcome
(success or logged failure) never stops the loop. Items are identified by
a numeric id; the mail collaborator may behave differently per item. -/
def alertWorker (mailer : ℕ → ℕ → Bool) : List (Option ℕ) → List (ℕ × SendOutcome)
  | [] => []
  | none :: _ => []
  | some it :: rest => (it, sendAlertInternal (mailer it)) :: alertWorker mailer rest

/-! Storage cleanup. Files are described by their modification time and
size. Both cleanup_by_size variants first compute the total size, return
when within budget, sort the files by modification time (Python list sort
of (mtime, path) tuples, modelled by a stable insertion sort on mtime)
and delete from the oldest end until their stop condition holds. The
deletion of a file is assumed to succeed, matching the claim setting. -/

structure FileInfo where
  mtime : ℤ
  size : ℕ
deriving DecidableEq

def totalSize (files : List FileInfo) : ℕ :=
  (files.map FileInfo.size).sum

/-- Stable insertion of a file into a list sorted by ascending mtime. -/
def insertFile (f : FileInfo) : List FileInfo → List FileInfo
  | [] => [f]
  | g :: l => if f.mtime ≤ g.mtime then f :: g :: l else g :: insertFile f l

/-- files_with_time.sort(): ascending by modification time. -/
def sortByMtime : List FileInfo → List FileInfo
  | [] => []
  | f :: l => insertFile f (sortByMtime l)

/-- Deletion loop of StorageManager.cleanup_by_size (monitor_optimized.py):
break as soon as current_size - freed_bytes is at most
target_size = max_size_bytes * 0.8; the comparison with the float 0.8
target is the exact rational comparison, written multiplied out over the
integers: current - freed is at most four fifths of maxSize. -/
def smDeleteLoop (maxSize current : ℕ) : List FileInfo → ℕ → List FileInfo
  | [], _ => []
  | f :: rest, freed =>
    if 5 * (current - freed) ≤ 4 * maxSize then []
    else f :: smDeleteLoop maxSize current rest (freed + f.size)

/-- StorageManager.cleanup_by_size: nothing to do while within
max_size_bytes, else delete oldest first until the 80 percent target. -/
def smCleanupBySize (maxSize : ℕ) (files : List FileInfo) : List FileInfo :=
  if totalSize files ≤ maxSize then []
  else smDeleteLoop maxSize (totalSize files) (sortByMtime files) 0

/-- Deletion loop of StorageCleanup.cleanup_by_size (storage_cleanup.py):
break as soon as current_size is at most max_size_bytes; files whose
mtime is newer than keep_recent_time are protected and skipped; deleting
a file decrements current_size by its size. -/
def scDeleteLoop (maxBytes : ℕ) (keepRecentTime : ℤ) : ℕ → List FileInfo → List FileInfo
  | _, [] => []
  | current, f :: rest =>
    if current ≤ maxBytes then []
    else if keepRecentTime < f.mtime then scDeleteLoop maxBytes keepRecentTime current rest
    else f :: scDeleteLoop maxBytes keepRecentTime (current - f.size) rest

/-- StorageCleanup.cleanup_by_size: max_size_bytes = max_size_mb * 1024 *
1024; return when within that budget, else delete oldest first (recent
files protected) until current size is within the budget itself. -/
def scCleanupBySize (maxSizeMb : ℕ) (keepRecentTime : ℤ) (files : List FileInfo) :
    List FileInfo :=
  if totalSize files ≤ maxSizeMb * 1024 * 1024 then []
  else scDeleteLoop (maxSizeMb * 1024 * 1024) keepRecentTime (totalSize files) (sortByMtime files)

/-! Helper lemmas. -/

theorem addFrame_maxSize (b : FrameBuffer) (f : Frame) :
    (b.addFrame f).maxSize = b.maxSize := rfl

theorem addFrame_length_le (b : FrameBuffer) (f : Frame)
    (h : b.frames.length ≤ b.maxSize) :
    (b.addFrame f).frames.length ≤ b.maxSize := by
  unfold FrameBuffer.addFrame
  by_cases hlt : b.maxSize < (b.frames ++ [f]).length
  · simp only [hlt, if_true, List.length_drop]
    omega
  · simp only [hlt, if_false]
    simp only [List.length_append, List.length_singleton] at hlt ⊢
    omega

theorem foldl_addFrame_spec (fs : List Frame) :
    ∀ b : FrameBuffer, b.frames.length ≤ b.maxSize →
      (fs.foldl FrameBuffer.addFrame b).frames.length ≤ (fs.foldl FrameBuffer.addFrame b).maxSize
      ∧ (fs.foldl FrameBuffer.addFrame b).maxSize = b.maxSize := by
  induction fs with
  | nil => exact fun b h => ⟨h, rfl⟩
  | cons f fs ih =>
    intro b h
    have h1 := addFrame_length_le b f h
    have h2 := ih (b.addFrame f) (by rw [addFrame_maxSize]; exact h1)
    exact ⟨h2.1, by rw [List.foldl_cons, h2.2, addFrame_maxSize]⟩

/-- Claim C7: a FrameBuffer built by any sequence of appends never holds
more than its capacity; an append at exactly full capacity (positive)
evicts exactly the oldest entry and inserts the new frame at the newest
end, with the surviving entries kept in their oldest-first order and the
capacity unchanged. -/
theorem frameBuffer_capacity_fifo :
    (∀ (n : ℕ) (fs : List Frame),
        (fs.foldl FrameBuffer.addFrame (FrameBuffer.init n)).frames.length ≤ n)
    ∧ (∀ (b : FrameBuffer) (f : Frame), b.frames.length = b.maxSize → 0 < b.maxSize →
        (b.addFrame f).frames = b.frames.tail ++ [f] ∧ (b.addFrame f).maxSize = b.maxSize) := by
  constructor
  · intro n fs
    have h := foldl_addFrame_spec fs (FrameBuffer.init n) (by simp [FrameBuffer.init])
    calc (fs.foldl FrameBuffer.addFrame (FrameBuffer.init n)).frames.length
        ≤ (fs.foldl FrameBuffer.addFrame (FrameBuffer.init n)).maxSize := h.1
      _ = n := h.2
  · intro b f hfull hpos
    refine ⟨?_, rfl⟩
    unfold FrameBuffer.addFrame
    have hlen : (b.frames ++ [f]).length = b.maxSize + 1 := by
      simp [hfull]
    have hlt : b.maxSize < (b.frames ++ [f]).length := by omega
    simp only [hlt, if_true, hlen]
    have hdrop1 : b.maxSize + 1 - b.maxSize = 1 := by omega
    rw [hdrop1, List.drop_append_of_le_length (by omega), List.drop_one]
    rw [if_pos (Nat.lt_succ_self _)]

/-- Witness for C7 at capacity 2: appending a third frame to a full
two-frame buffer keeps length within 2 and evicts exactly the oldest. -/
theorem frameBuffer_capacity_fifo_witness :
    (([⟨1, 1⟩, ⟨2, 2⟩, ⟨3, 3⟩] : List Frame).foldl FrameBuffer.addFrame
        (FrameBuffer.init 2)).frames.length ≤ 2
    ∧ ((⟨2, [⟨1, 1⟩, ⟨2, 2⟩]⟩ : FrameBuffer).frames.length
        = (⟨2, [⟨1, 1⟩, ⟨2, 2⟩]⟩ : FrameBuffer).maxSize
      ∧ 0 < (⟨2, [⟨1, 1⟩, ⟨2, 2⟩]⟩ : FrameBuffer).maxSize)
    ∧ ((⟨2, [⟨1, 1⟩, ⟨2, 2⟩]⟩ : FrameBuffer).addFrame ⟨3, 3⟩).frames
        = (⟨2, [⟨1, 1⟩, ⟨2, 2⟩]⟩ : FrameBuffer).frames.tail ++ [⟨3, 3⟩]
      ∧ ((⟨2, [⟨1, 1⟩, ⟨2, 2⟩]⟩ : FrameBuffer).addFrame ⟨3, 3⟩).maxSize
        = (⟨2, [⟨1, 1⟩, ⟨2, 2⟩]⟩ : FrameBuffer).maxSize :=
  ⟨frameBuffer_capacity_fifo.1 2 [⟨1, 1⟩, ⟨2, 2⟩, ⟨3, 3⟩],
   ⟨by decide, by decide⟩,
   frameBuffer_capacity_fifo.2 ⟨2, [⟨1, 1⟩, ⟨2, 2⟩]⟩ ⟨3, 3⟩ (by decide) (by decide)⟩

theorem isTriggeredRun_replicate (T c n : ℕ) :
    (isTriggeredRun ⟨T, c⟩ (List.replicate n (some true))).2
      = (List.range n).map (fun i => decide (T ≤ c + i + 1)) := by
  induction n generalizing c with
  | zero => simp [isTriggeredRun]
  | succ n ih =>
    rw [List.replicate_succ, List.range_succ_eq_map]
    simp only [isTriggeredRun, isTriggered, List.map_cons, List.map_map]
    refine congrArg₂ _ (by simp) ?_
    rw [ih (c + 1)]
    refine List.map_congr_left ?_
    intro i _
    simp only [Function.comp, decide_eq_decide]
    omega

/-- Claim C2 (amended): over a run of n consecutive positive readings from
a fresh debounce state, the i-th call (0-based) returns true exactly when
i + 1 meets the threshold: false strictly before the threshold is first
reached, true on the first reaching call, and true again on every later
still-hazardous call of the episode (the counter keeps growing and the
check is a greater-or-equal comparison). -/
theorem isTriggered_threshold_run (T n : ℕ) :
    (isTriggeredRun ⟨T, 0⟩ (List.replicate n (some true))).2
      = (List.range n).map (fun i => decide (T ≤ i + 1)) := by
  simpa using isTriggeredRun_replicate T 0 n

/-- Counterexample to claim C2 as stated: with threshold 2, three
consecutive positive readings yield false, true, true; the claim predicts
false, true, false (true on exactly the first reaching call). -/
theorem isTriggered_repeat_counterexample :
    (isTriggeredRun ⟨2, 0⟩ [some true, some true, some true]).2 = [false, true, true]
    ∧ (isTriggeredRun ⟨2, 0⟩ [some true, some true, some true]).2 ≠ [false, true, false] :=
  ⟨by decide, by decide⟩

/-- Claim C1 (amended): the evidence attached when a queued alert is
processed equals the frame-buffer snapshot taken at processing (delivery)
time, which is the full oldest-first copy of the buffer at that moment;
frames appended between the firing of the alert and its processing are
therefore part of the delivered evidence. -/
theorem processAlert_evidence_delivery_time (buf : FrameBuffer) (a : String × ℤ)
    (q : List (String × ℤ)) :
    processAlert buf (a :: q) = (some (a, buf.getFrames), q)
    ∧ buf.getFrames = buf.frames :=
  ⟨rfl, rfl⟩

/-- Counterexample to claim C1 as stated: an alert fires at time 2 while
the buffer holds two frames; one more frame is appended before the queued
alert is processed; the delivered evidence contains that later frame,
which the fire-time snapshot does not. -/
theorem processAlert_evidence_counterexample :
    (processAlert (FrameBuffer.addFrame ⟨15, [⟨1, 1⟩, ⟨2, 2⟩]⟩ ⟨3, 3⟩) [("smoke_1", 2)]).1
        = some (("smoke_1", 2), [⟨1, 1⟩, ⟨2, 2⟩, ⟨3, 3⟩])
    ∧ FrameBuffer.getFrames ⟨15, [⟨1, 1⟩, ⟨2, 2⟩]⟩ = [⟨1, 1⟩, ⟨2, 2⟩]
    ∧ (⟨3, 3⟩ : Frame) ∉ FrameBuffer.getFrames ⟨15, [⟨1, 1⟩, ⟨2, 2⟩]⟩ :=
  ⟨by decide, by decide, by decide⟩

theorem checkAlertsStep_sid (r : String → Option Bool) (s : Sensor) :
    ((checkAlertsStep r s).1).sid = s.sid := by
  cases s <;> rfl

/-- Claim C10: the water sensor is not debounced. In check_alerts its id is
included exactly when the single reading of the current tick is positive;
the per-sensor step keeps no water-sensor state (the sensor value is
returned unchanged) and consults no consecutive-count threshold, unlike
the smoke and flame branches. -/
theorem water_sensor_undebounced (readings : String → Option Bool) (w : String)
    (sensors : List Sensor)
    (hw : Sensor.water w ∈ sensors)
    (huniq : ∀ s ∈ sensors, s.sid = w → s = Sensor.water w) :
    (w ∈ (checkAlerts readings sensors).1 ↔ readings w = some true)
    ∧ checkAlertsStep readings (Sensor.water w)
        = (Sensor.water w, decide (readings w = some true)) := by
  refine ⟨⟨?_, ?_⟩, rfl⟩
  · intro hmem
    simp only [checkAlerts] at hmem
    obtain ⟨p, hp, hfp⟩ := List.mem_filterMap.mp hmem
    obtain ⟨s, hs, rfl⟩ := List.mem_map.mp hp
    by_cases hflag : (checkAlertsStep readings s).2
    · rw [if_pos hflag] at hfp
      have hsid : s.sid = w := by
        rw [← checkAlertsStep_sid readings s]
        exact Option.some_injective _ hfp
      have hse := huniq s hs hsid
      rw [hse] at hflag
      simpa [checkAlertsStep] using hflag
    · rw [if_neg hflag] at hfp
      exact absurd hfp (by simp)
  · intro hr
    simp only [checkAlerts]
    apply List.mem_filterMap.mpr
    refine ⟨checkAlertsStep readings (Sensor.water w),
      List.mem_map_of_mem _ hw, ?_⟩
    simp [checkAlertsStep, hr, Sensor.sid]

/-- Witness for C10: with a water sensor and a smoke sensor registered and
a positive water reading this tick, the water id is in the alert list. -/
theorem water_sensor_undebounced_witness :
    ((Sensor.water "water_1" ∈
        [Sensor.water "water_1", Sensor.debounce "smoke_1" ⟨2, 0⟩])
      ∧ (∀ s ∈ [Sensor.water "water_1", Sensor.debounce "smoke_1" ⟨2, 0⟩],
          s.sid = "water_1" → s = Sensor.water "water_1"))
    ∧ (("water_1" ∈ (checkAlerts (fun i => if i = "water_1" then some true else some false)
          [Sensor.water "water_1", Sensor.debounce "smoke_1" ⟨2, 0⟩]).1
        ↔ (fun i => if i = "water_1" then some true else some false) "water_1" = some true)
      ∧ checkAlertsStep (fun i => if i = "water_1" then some true else some false)
          (Sensor.water "water_1")
        = (Sensor.water "water_1",
           decide ((fun i => if i = "water_1" then some true else some false) "water_1"
             = some true))) :=
  ⟨⟨by decide, by decide⟩,
   water_sensor_undebounced (fun i => if i = "water_1" then some true else some false)
     "water_1" [Sensor.water "water_1", Sensor.debounce "smoke_1" ⟨2, 0⟩]
     (by decide) (by decide)⟩

theorem dictGetD_set_self (d : List (String × ℤ)) (k : String) (v w : ℤ) :
    dictGetD (dictSet d k v) k w = v := by
  simp [dictGetD, dictSet, List.lookup]

theorem handleAlerts_single (sensors : List String) (cd t : ℤ) (st : HState)
    (sid : String) :
    handleAlerts sensors cd st [sid] t = handleAlertsStep sensors cd t st sid := rfl

/-- Claim C3: with the cooldown table entry for a sensor set to its firing
time t (exactly what _handle_alerts records when it fires), every
evaluation of that sensor strictly inside the cooldown window produces no
alert and leaves the state unchanged, the first evaluation at or past
t + cooldown fires again, firing records the entry and enqueues in the
same step, and a sensor that never fired passes the cooldown check at any
wall-clock time at least the cooldown period (the table defaults to 0). -/
theorem alert_cooldown_gating (sensors : List String) (c q : List (String × ℤ))
    (cd t t' now : ℤ) (sid : String)
    (hmem : sid ∈ sensors) (hnever : c.lookup sid = none) (hnow : cd ≤ now) :
    checkAlertCooldown c sid now cd = true
    ∧ (∀ (c' q' : List (String × ℤ)), checkAlertCooldown c' sid t cd = true →
        handleAlerts sensors cd ⟨c', q'⟩ [sid] t
          = ⟨dictSet c' sid t, q' ++ [(sid, t)]⟩)
    ∧ (t' - t < cd →
        handleAlerts sensors cd ⟨dictSet c sid t, q⟩ [sid] t'
          = ⟨dictSet c sid t, q⟩)
    ∧ (cd ≤ t' - t →
        handleAlerts sensors cd ⟨dictSet c sid t, q⟩ [sid] t'
          = ⟨dictSet (dictSet c sid t) sid t', q ++ [(sid, t')]⟩) := by
  refine ⟨?_, ?_, ?_, ?_⟩
  · simp only [checkAlertCooldown, dictGetD, hnever, Option.getD_none,
      decide_eq_true_eq]
    omega
  · intro c' q' hel
    rw [handleAlerts_single]
    simp [handleAlertsStep, hel, hmem]
  · intro hwithin
    rw [handleAlerts_single]
    have hc : checkAlertCooldown (dictSet c sid t) sid t' cd = false := by
      simp only [checkAlertCooldown, dictGetD_set_self, decide_eq_false_iff_not]
      omega
    simp [handleAlertsStep, hc]
  · intro hpast
    rw [handleAlerts_single]
    have hc : checkAlertCooldown (dictSet c sid t) sid t' cd = true := by
      simp only [checkAlertCooldown, dictGetD_set_self, decide_eq_true_eq]
      omega
    simp [handleAlertsStep, hc, hmem]

/-- Witness for C3 with cooldown 300: a sensor fired at time 1000 is
suppressed at 1299 and fires again at 1300; a never-fired sensor is
eligible at wall-clock time 500. -/
theorem alert_cooldown_gating_witness :
    ("s1" ∈ ["s1"] ∧ ([] : List (String × ℤ)).lookup "s1" = none ∧ (300 : ℤ) ≤ 500)
    ∧ (checkAlertCooldown [] "s1" 500 300 = true
      ∧ (∀ (c' q' : List (String × ℤ)), checkAlertCooldown c' "s1" 1000 300 = true →
          handleAlerts ["s1"] 300 ⟨c', q'⟩ ["s1"] 1000
            = ⟨dictSet c' "s1" 1000, q' ++ [("s1", 1000)]⟩)
      ∧ ((1299 : ℤ) - 1000 < 300 →
          handleAlerts ["s1"] 300 ⟨dictSet [] "s1" 1000, []⟩ ["s1"] 1299
            = ⟨dictSet [] "s1" 1000, []⟩)
      ∧ ((300 : ℤ) ≤ 1299 - 1000 →
          handleAlerts ["s1"] 300 ⟨dictSet [] "s1" 1000, []⟩ ["s1"] 1299
            = ⟨dictSet (dictSet [] "s1" 1000) "s1" 1299, [] ++ [("s1", 1299)]⟩)) :=
  ⟨⟨by decide, rfl, by decide⟩,
   alert_cooldown_gating ["s1"] [] [] 300 1000 1299 500 "s1"
     (by decide) rfl (by decide)⟩

/-- Claim C4 (amended): MonitorSystem._handle_alerts records the cooldown
entry for a fired sensor unconditionally in the same synchronous step that
enqueues the alert, before any delivery happens and independent of any
delivery outcome; AlertManager.send_alert, by contrast, updates its own
cooldown table only when the email send succeeds, leaving the entry
untouched when delivery fails. -/
theorem cooldown_update_at_creation_vs_delivery :
    (∀ (sensors : List String) (cd : ℤ) (c q : List (String × ℤ)) (sid : String) (t : ℤ),
        sid ∈ sensors → checkAlertCooldown c sid t cd = true →
        handleAlerts sensors cd ⟨c, q⟩ [sid] t = ⟨dictSet c sid t, q ++ [(sid, t)]⟩)
    ∧ (∀ (st : AMState) (ty : String) (rcpts : List String) (now cdd : ℤ) (ok : Bool),
        amCheckCooldown st.cooldowns ty now cdd = true → rcpts ≠ [] →
        (sendAlert st ty rcpts now cdd ok).1.cooldowns
          = if ok then dictSet st.cooldowns ty now else st.cooldowns) := by
  constructor
  · intro sensors cd c q sid t hmem hel
    rw [handleAlerts_single]
    simp [handleAlertsStep, hel, hmem]
  · intro st ty rcpts now cdd ok hel hne
    have hemp : rcpts.isEmpty = false := by
      cases rcpts with
      | nil => exact absurd rfl hne
      | cons a l => rfl
    cases ok <;> simp [sendAlert, hel, hemp]

/-- Witness for C4 (amended): firing at time 50 records the monitor-side
entry with the enqueue; a failed AlertManager delivery leaves its
cooldown table unchanged. -/
theorem cooldown_update_at_creation_vs_delivery_witness :
    (("s1" ∈ ["s1"] ∧ checkAlertCooldown [] "s1" 50 30 = true)
      ∧ handleAlerts ["s1"] 30 ⟨[], []⟩ ["s1"] 50 = ⟨dictSet [] "s1" 50, [] ++ [("s1", 50)]⟩)
    ∧ ((amCheckCooldown (⟨[], []⟩ : AMState).cooldowns "smoke" 100 300 = true
        ∧ (["admin"] : List String) ≠ [])
      ∧ (sendAlert ⟨[], []⟩ "smoke" ["admin"] 100 300 false).1.cooldowns
          = if false then dictSet (⟨[], []⟩ : AMState).cooldowns "smoke" 100
            else (⟨[], []⟩ : AMState).cooldowns) :=
  ⟨⟨⟨by decide, by decide⟩,
    cooldown_update_at_creation_vs_delivery.1 ["s1"] 30 [] [] "s1" 50 (by decide) (by decide)⟩,
   ⟨⟨by decide, by decide⟩,
    cooldown_update_at_creation_vs_delivery.2 ⟨[], []⟩ "smoke" ["admin"] 100 300 false
      (by decide) (by decide)⟩⟩

/-- Counterexample to claim C4 as stated: AlertManager.send_alert with a
failing mail collaborator creates and stores the alert (with its error)
but leaves the cooldown table empty; the entry update is conditioned on a
successful send, so a failed delivery leaves it un-updated. -/
theorem sendAlert_failed_delivery_counterexample :
    sendAlert ⟨[], []⟩ "smoke" ["admin"] 100 300 false
      = (⟨[], [⟨"smoke", false, some "EmailException"⟩]⟩, false) := by decide

/-- Claim C5: queue_alert_email called when the bounded email queue
(capacity 10) is already full never changes the queue contents and never
reports a successful enqueue; when the event is out of cooldown the alert
is dropped with the logged-warning outcome (queue.Full is caught, nothing
propagates, the function simply returns). -/
theorem queue_full_drop (st : OptState) (ty : String) (z : ℕ) (now cd : ℤ)
    (hfull : emailQueueMax ≤ st.emailQueue.length) :
    (queueAlertEmail st ty z now cd).1.emailQueue = st.emailQueue
    ∧ (queueAlertEmail st ty z now cd).2 ≠ QueueOutcome.queued
    ∧ (cd ≤ now - dictGetD st.lastAlert ty 0 →
        (queueAlertEmail st ty z now cd).2 = QueueOutcome.droppedFull) := by
  by_cases helig : cd ≤ now - dictGetD st.lastAlert ty 0
  · simp [queueAlertEmail, shouldSendAlert, helig, hfull]
  · simp [queueAlertEmail, shouldSendAlert, helig]

/-- Witness for C5: a full ten-entry queue with an out-of-cooldown FIRE
event drops the alert and leaves the queue unchanged. -/
theorem queue_full_drop_witness :
    (emailQueueMax ≤ (⟨[], List.replicate 10 ⟨"SMOKE", 0, 0⟩⟩ : OptState).emailQueue.length)
    ∧ ((queueAlertEmail ⟨[], List.replicate 10 ⟨"SMOKE", 0, 0⟩⟩ "FIRE" 9 1000 300).1.emailQueue
          = (⟨[], List.replicate 10 ⟨"SMOKE", 0, 0⟩⟩ : OptState).emailQueue
      ∧ (queueAlertEmail ⟨[], List.replicate 10 ⟨"SMOKE", 0, 0⟩⟩ "FIRE" 9 1000 300).2
          ≠ QueueOutcome.queued
      ∧ ((300 : ℤ) ≤ 1000 - dictGetD (⟨[], List.replicate 10 ⟨"SMOKE", 0, 0⟩⟩ : OptState).lastAlert "FIRE" 0 →
          (queueAlertEmail ⟨[], List.replicate 10 ⟨"SMOKE", 0, 0⟩⟩ "FIRE" 9 1000 300).2
            = QueueOutcome.droppedFull)) :=
  ⟨by decide,
   queue_full_drop ⟨[], List.replicate 10 ⟨"SMOKE", 0, 0⟩⟩ "FIRE" 9 1000 300 (by decide)⟩

/-- Claim C9: when the queue is full and the event type is out of
cooldown, queue_alert_email drops the alert, yet should_send_alert has
already recorded the current time in the cooldown table; every later call
for the same event type strictly within the cooldown window is skipped as
a duplicate with the state unchanged, even though nothing of this episode
was ever enqueued. -/
theorem drop_still_records_cooldown (st : OptState) (ty : String) (z z' : ℕ)
    (now t' cd : ℤ)
    (hfull : emailQueueMax ≤ st.emailQueue.length)
    (helig : cd ≤ now - dictGetD st.lastAlert ty 0)
    (hwithin : t' - now < cd) :
    (queueAlertEmail st ty z now cd).2 = QueueOutcome.droppedFull
    ∧ (queueAlertEmail st ty z now cd).1.emailQueue = st.emailQueue
    ∧ dictGetD (queueAlertEmail st ty z now cd).1.lastAlert ty 0 = now
    ∧ queueAlertEmail (queueAlertEmail st ty z now cd).1 ty z' t' cd
        = ((queueAlertEmail st ty z now cd).1, QueueOutcome.skippedCooldown) := by
  have hstep : queueAlertEmail st ty z now cd
      = ({ st with lastAlert := dictSet st.lastAlert ty now }, QueueOutcome.droppedFull) := by
    simp [queueAlertEmail, shouldSendAlert, helig, hfull]
  refine ⟨by rw [hstep], by rw [hstep], ?_, ?_⟩
  · rw [hstep]
    exact dictGetD_set_self st.lastAlert ty now 0
  · rw [hstep]
    have hc : ¬ cd ≤ t' - dictGetD (dictSet st.lastAlert ty now) ty 0 := by
      rw [dictGetD_set_self]
      omega
    simp [queueAlertEmail, shouldSendAlert, hc]

/-- Witness for C9: cooldown 300, full queue, eligible at time 1000; the
drop records 1000 and a retry at 1200 is skipped as a duplicate. -/
theorem drop_still_records_cooldown_witness :
    ((emailQueueMax ≤ (⟨[], List.replicate 10 ⟨"SMOKE", 0, 0⟩⟩ : OptState).emailQueue.length)
      ∧ (300 : ℤ) ≤ 1000 - dictGetD (⟨[], List.replicate 10 ⟨"SMOKE", 0, 0⟩⟩ : OptState).lastAlert "FIRE" 0
      ∧ (1200 : ℤ) - 1000 < 300)
    ∧ ((queueAlertEmail ⟨[], List.replicate 10 ⟨"SMOKE", 0, 0⟩⟩ "FIRE" 9 1000 300).2
          = QueueOutcome.droppedFull
      ∧ (queueAlertEmail ⟨[], List.replicate 10 ⟨"SMOKE", 0, 0⟩⟩ "FIRE" 9 1000 300).1.emailQueue
          = (⟨[], List.replicate 10 ⟨"SMOKE", 0, 0⟩⟩ : OptState).emailQueue
      ∧ dictGetD (queueAlertEmail ⟨[], List.replicate 10 ⟨"SMOKE", 0, 0⟩⟩ "FIRE" 9 1000 300).1.lastAlert "FIRE" 0 = 1000
      ∧ queueAlertEmail (queueAlertEmail ⟨[], List.replicate 10 ⟨"SMOKE", 0, 0⟩⟩ "FIRE" 9 1000 300).1 "FIRE" 8 1200 300
          = ((queueAlertEmail ⟨[], List.replicate 10 ⟨"SMOKE", 0, 0⟩⟩ "FIRE" 9 1000 300).1,
             QueueOutcome.skippedCooldown)) :=
  ⟨⟨by decide, by decide, by decide⟩,
   drop_still_records_cooldown ⟨[], List.replicate 10 ⟨"SMOKE", 0, 0⟩⟩ "FIRE" 9 8 1000 1200 300
     (by decide) (by decide) (by decide)⟩

/-- Claim C6: against a mail collaborator failing on every attempt,
_send_alert_internal makes exactly 3 attempts with a fixed 5-second sleep
between consecutive attempts and ends in the logged-failure outcome; the
background worker records that outcome for the item and continues with
the rest of the queue. -/
theorem failing_mailer_retry_budget (mailer : ℕ → ℕ → Bool) (it : ℕ)
    (rest : List (Option ℕ))
    (hfail : ∀ n, mailer it n = false) :
    sendAlertInternal (mailer it) = ⟨3, [5, 5], false⟩
    ∧ alertWorker mailer (some it :: rest)
        = (it, ⟨3, [5, 5], false⟩) :: alertWorker mailer rest := by
  have h1 : sendAlertInternal (mailer it) = ⟨3, [5, 5], false⟩ := by
    simp [sendAlertInternal, retryCount, attemptSend, hfail]
  exact ⟨h1, by rw [alertWorker, h1]⟩

/-- Witness for C6: an always-failing mailer on item 7 yields three
attempts, two 5-second delays, failure, and the worker proceeds to item
8. -/
theorem failing_mailer_retry_budget_witness :
    (∀ n, (fun _ _ => false : ℕ → ℕ → Bool) 7 n = false)
    ∧ (sendAlertInternal ((fun _ _ => false : ℕ → ℕ → Bool) 7) = ⟨3, [5, 5], false⟩
      ∧ alertWorker (fun _ _ => false) (some 7 :: [some 8, none])
          = (7, ⟨3, [5, 5], false⟩) :: alertWorker (fun _ _ => false) [some 8, none]) :=
  ⟨fun _ => rfl,
   failing_mailer_retry_budget (fun _ _ => false) 7 [some 8, none] (fun _ => rfl)⟩

theorem totalSize_cons (f : FileInfo) (l : List FileInfo) :
    totalSize (f :: l) = f.size + totalSize l := by
  simp [totalSize]

theorem insertFile_perm (f : FileInfo) (l : List FileInfo) :
    (insertFile f l).Perm (f :: l) := by
  induction l with
  | nil => exact List.Perm.refl _
  | cons g t ih =>
    by_cases hle : f.mtime ≤ g.mtime
    · rw [insertFile, if_pos hle]
    · rw [insertFile, if_neg hle]
      exact (ih.cons g).trans (List.Perm.swap f g t)

theorem sortByMtime_perm (l : List FileInfo) : (sortByMtime l).Perm l := by
  induction l with
  | nil => exact List.Perm.refl _
  | cons f t ih => exact (insertFile_perm f (sortByMtime t)).trans (ih.cons f)

theorem insertFile_sorted (f : FileInfo) (l : List FileInfo)
    (h : l.Sorted (fun a b => a.mtime ≤ b.mtime)) :
    (insertFile f l).Sorted (fun a b => a.mtime ≤ b.mtime) := by
  induction l with
  | nil => simp [insertFile]
  | cons g t ih =>
    rw [List.sorted_cons] at h
    by_cases hle : f.mtime ≤ g.mtime
    · rw [insertFile, if_pos hle]
      refine List.sorted_cons.mpr ⟨?_, List.sorted_cons.mpr h⟩
      intro b hb
      rcases List.mem_cons.mp hb with rfl | hb2
      · exact hle
      · exact le_trans hle (h.1 b hb2)
    · rw [insertFile, if_neg hle]
      refine List.sorted_cons.mpr ⟨?_, ih h.2⟩
      intro b hb
      rcases List.mem_cons.mp ((insertFile_perm f t).mem_iff.mp hb) with rfl | hb3
      · exact le_of_not_le hle
      · exact h.1 b hb3

theorem sortByMtime_sorted (l : List FileInfo) :
    (sortByMtime l).Sorted (fun a b => a.mtime ≤ b.mtime) := by
  induction l with
  | nil => simp [sortByMtime]
  | cons f t ih => exact insertFile_sorted f _ ih

theorem sorted_take_drop (l : List FileInfo)
    (h : l.Sorted (fun a b => a.mtime ≤ b.mtime)) (k : ℕ) :
    ∀ f ∈ l.take k, ∀ g ∈ l.drop k, f.mtime ≤ g.mtime := by
  have hp : List.Pairwise (fun a b : FileInfo => a.mtime ≤ b.mtime) (l.take k ++ l.drop k) := by
    rw [List.take_append_drop]
    exact h
  exact (List.pairwise_append.mp hp).2.2

theorem smDeleteLoop_spec (maxSize current : ℕ) (l : List FileInfo) :
    ∀ freed : ℕ,
      ∃ k, k ≤ l.length
        ∧ smDeleteLoop maxSize current l freed = l.take k
        ∧ (5 * (current - (freed + totalSize (l.take k))) ≤ 4 * maxSize ∨ k = l.length)
        ∧ ∀ j < k, ¬ 5 * (current - (freed + totalSize (l.take j))) ≤ 4 * maxSize := by
  induction l with
  | nil =>
    intro freed
    exact ⟨0, le_refl 0, rfl, Or.inr rfl, fun j hj => absurd hj (Nat.not_lt_zero j)⟩
  | cons f rest ih =>
    intro freed
    by_cases hstop : 5 * (current - freed) ≤ 4 * maxSize
    · refine ⟨0, Nat.zero_le _, ?_, Or.inl ?_, fun j hj => absurd hj (Nat.not_lt_zero j)⟩
      · simp only [smDeleteLoop, if_pos hstop, List.take_zero]
      · simpa [totalSize] using hstop
    · obtain ⟨k, hk, hloop, hstop2, hmin⟩ := ih (freed + f.size)
      refine ⟨k + 1, Nat.succ_le_succ hk, ?_, ?_, ?_⟩
      · simp only [smDeleteLoop, if_neg hstop, hloop, List.take_succ_cons]
      · rcases hstop2 with h | h
        · left
          rw [List.take_succ_cons, totalSize_cons]
          omega
        · right
          rw [h, List.length_cons]
      · intro j hj
        cases j with
        | zero =>
          intro hcontra
          apply hstop
          simpa [totalSize] using hcontra
        | succ j' =>
          have h2 := hmin j' (Nat.lt_of_succ_lt_succ hj)
          rw [List.take_succ_cons, totalSize_cons]
          omega

theorem scDeleteLoop_spec (maxBytes : ℕ) (cutoff : ℤ) (l : List FileInfo) :
    ∀ current : ℕ, (∀ f ∈ l, f.mtime ≤ cutoff) →
      ∃ k, k ≤ l.length
        ∧ scDeleteLoop maxBytes cutoff current l = l.take k
        ∧ (current - totalSize (l.take k) ≤ maxBytes ∨ k = l.length)
        ∧ ∀ j < k, ¬ current - totalSize (l.take j) ≤ maxBytes := by
  induction l with
  | nil =>
    intro current _
    exact ⟨0, le_refl 0, rfl, Or.inr rfl, fun j hj => absurd hj (Nat.not_lt_zero j)⟩
  | cons f rest ih =>
    intro current hrec
    have hfm : ¬ cutoff < f.mtime := not_lt.mpr (hrec f (List.mem_cons_self f rest))
    by_cases hstop : current ≤ maxBytes
    · refine ⟨0, Nat.zero_le _, ?_, Or.inl ?_, fun j hj => absurd hj (Nat.not_lt_zero j)⟩
      · simp only [scDeleteLoop, if_pos hstop, List.take_zero]
      · simpa [totalSize] using hstop
    · obtain ⟨k, hk, hloop, hstop2, hmin⟩ :=
        ih (current - f.size) (fun g hg => hrec g (List.mem_cons_of_mem f hg))
      refine ⟨k + 1, Nat.succ_le_succ hk, ?_, ?_, ?_⟩
      · simp only [scDeleteLoop, if_neg hstop, if_neg hfm, hloop, List.take_succ_cons]
      · rcases hstop2 with h | h
        · left
          rw [List.take_succ_cons, totalSize_cons]
          omega
        · right
          rw [h, List.length_cons]
      · intro j hj
        cases j with
        | zero =>
          intro hcontra
          apply hstop
          simpa [totalSize] using hcontra
        | succ j' =>
          have h2 := hmin j' (Nat.lt_of_succ_lt_succ hj)
          rw [List.take_succ_cons, totalSize_cons]
          omega

/-- Claim C8 (amended): with total usage over budget, both size-based
cleanup passes delete a prefix of the files sorted oldest-first by
modification time, each deletion happening only while the stop condition
is still violated, and never delete a file newer than a surviving one;
StorageManager.cleanup_by_size (monitor_optimized.py) stops as soon as
remaining usage is at most 80 percent of max_size_bytes, whereas
StorageCleanup.cleanup_by_size (storage_cleanup.py) stops as soon as
remaining usage is at most max_size_bytes itself (and additionally
protects files more recent than keep_recent_time; here all files are
older than that cutoff). -/
theorem cleanup_by_size_oldest_first :
    (∀ (maxSize : ℕ) (files : List FileInfo), maxSize < totalSize files →
      ∃ k, k ≤ (sortByMtime files).length
        ∧ smCleanupBySize maxSize files = (sortByMtime files).take k
        ∧ (5 * (totalSize files - totalSize ((sortByMtime files).take k)) ≤ 4 * maxSize
            ∨ k = (sortByMtime files).length)
        ∧ (∀ j < k,
            ¬ 5 * (totalSize files - totalSize ((sortByMtime files).take j)) ≤ 4 * maxSize)
        ∧ (∀ f ∈ (sortByMtime files).take k, ∀ g ∈ (sortByMtime files).drop k,
            f.mtime ≤ g.mtime)
        ∧ (sortByMtime files).Perm files)
    ∧ (∀ (maxSizeMb : ℕ) (cutoff : ℤ) (files : List FileInfo),
        maxSizeMb * 1024 * 1024 < totalSize files →
        (∀ f ∈ files, f.mtime ≤ cutoff) →
        ∃ k, k ≤ (sortByMtime files).length
          ∧ scCleanupBySize maxSizeMb cutoff files = (sortByMtime files).take k
          ∧ (totalSize files - totalSize ((sortByMtime files).take k) ≤ maxSizeMb * 1024 * 1024
              ∨ k = (sortByMtime files).length)
          ∧ (∀ j < k,
              ¬ totalSize files - totalSize ((sortByMtime files).take j)
                ≤ maxSizeMb * 1024 * 1024)
          ∧ (∀ f ∈ (sortByMtime files).take k, ∀ g ∈ (sortByMtime files).drop k,
              f.mtime ≤ g.mtime)
          ∧ (sortByMtime files).Perm files) := by
  constructor
  · intro maxSize files hover
    obtain ⟨k, hk, hloop, hstop, hmin⟩ :=
      smDeleteLoop_spec maxSize (totalSize files) (sortByMtime files) 0
    refine ⟨k, hk, ?_, ?_, ?_, sorted_take_drop _ (sortByMtime_sorted files) k,
      sortByMtime_perm files⟩
    · rw [smCleanupBySize, if_neg (not_le.mpr hover)]
      exact hloop
    · simpa using hstop
    · intro j hj
      simpa using hmin j hj
  · intro maxSizeMb cutoff files hover hage
    have hage2 : ∀ f ∈ sortByMtime files, f.mtime ≤ cutoff :=
      fun f hf => hage f ((sortByMtime_perm files).mem_iff.mp hf)
    obtain ⟨k, hk, hloop, hstop, hmin⟩ :=
      scDeleteLoop_spec (maxSizeMb * 1024 * 1024) cutoff (sortByMtime files)
        (totalSize files) hage2
    refine ⟨k, hk, ?_, hstop, hmin, sorted_take_drop _ (sortByMtime_sorted files) k,
      sortByMtime_perm files⟩
    rw [scCleanupBySize, if_neg (not_le.mpr hover)]
    exact hloop

/-- Witness for C8 (amended) at small inputs: budget 10 over files of
sizes 4, 4, 4 for the 80 percent variant, and budget 0 MB over one old
file for the full-budget variant. -/
theorem cleanup_by_size_oldest_first_witness :
    ((10 < totalSize [⟨1, 4⟩, ⟨2, 4⟩, ⟨3, 4⟩])
      ∧ ∃ k, k ≤ (sortByMtime [⟨1, 4⟩, ⟨2, 4⟩, ⟨3, 4⟩]).length
        ∧ smCleanupBySize 10 [⟨1, 4⟩, ⟨2, 4⟩, ⟨3, 4⟩]
            = (sortByMtime [⟨1, 4⟩, ⟨2, 4⟩, ⟨3, 4⟩]).take k
        ∧ (5 * (totalSize [⟨1, 4⟩, ⟨2, 4⟩, ⟨3, 4⟩]
              - totalSize ((sortByMtime [⟨1, 4⟩, ⟨2, 4⟩, ⟨3, 4⟩]).take k)) ≤ 4 * 10
            ∨ k = (sortByMtime [⟨1, 4⟩, ⟨2, 4⟩, ⟨3, 4⟩]).length)
        ∧ (∀ j < k, ¬ 5 * (totalSize [⟨1, 4⟩, ⟨2, 4⟩, ⟨3, 4⟩]
              - totalSize ((sortByMtime [⟨1, 4⟩, ⟨2, 4⟩, ⟨3, 4⟩]).take j)) ≤ 4 * 10)
        ∧ (∀ f ∈ (sortByMtime [⟨1, 4⟩, ⟨2, 4⟩, ⟨3, 4⟩]).take k,
            ∀ g ∈ (sortByMtime [⟨1, 4⟩, ⟨2, 4⟩, ⟨3, 4⟩]).drop k, f.mtime ≤ g.mtime)
        ∧ (sortByMtime [⟨1, 4⟩, ⟨2, 4⟩, ⟨3, 4⟩]).Perm [⟨1, 4⟩, ⟨2, 4⟩, ⟨3, 4⟩])
    ∧ ((0 * 1024 * 1024 < totalSize [⟨1, 5⟩] ∧ ∀ f ∈ [(⟨1, 5⟩ : FileInfo)], f.mtime ≤ 10)
      ∧ ∃ k, k ≤ (sortByMtime [⟨1, 5⟩]).length
        ∧ scCleanupBySize 0 10 [⟨1, 5⟩] = (sortByMtime [⟨1, 5⟩]).take k
        ∧ (totalSize [⟨1, 5⟩] - totalSize ((sortByMtime [⟨1, 5⟩]).take k) ≤ 0 * 1024 * 1024
            ∨ k = (sortByMtime [⟨1, 5⟩]).length)
        ∧ (∀ j < k, ¬ totalSize [⟨1, 5⟩] - totalSize ((sortByMtime [⟨1, 5⟩]).take j)
              ≤ 0 * 1024 * 1024)
        ∧ (∀ f ∈ (sortByMtime [⟨1, 5⟩]).take k,
            ∀ g ∈ (sortByMtime [⟨1, 5⟩]).drop k, f.mtime ≤ g.mtime)
        ∧ (sortByMtime [⟨1, 5⟩]).Perm [⟨1, 5⟩]) :=
  ⟨⟨by decide, cleanup_by_size_oldest_first.1 10 [⟨1, 4⟩, ⟨2, 4⟩, ⟨3, 4⟩] (by decide)⟩,
   ⟨⟨by decide, by decide⟩,
    cleanup_by_size_oldest_first.2 0 10 [⟨1, 5⟩] (by decide) (by decide)⟩⟩

/-- Counterexample to claim C8 as stated: budget 1 MB (1048576 bytes),
four files of 300000 bytes each, all far older than the recent-file
cutoff, total 1200000 bytes over budget. StorageCleanup.cleanup_by_size
deletes only the oldest file and stops at 900000 bytes, which is within
the budget but still above the 80 percent target of 838860.8 bytes; the
claimed pass would have deleted a second file. -/
theorem storage_cleanup_budget_counterexample :
    scCleanupBySize 1 100 [⟨1, 300000⟩, ⟨2, 300000⟩, ⟨3, 300000⟩, ⟨4, 300000⟩]
        = [⟨1, 300000⟩]
    ∧ ¬ 5 * (totalSize [⟨1, 300000⟩, ⟨2, 300000⟩, ⟨3, 300000⟩, ⟨4, 300000⟩]
          - totalSize [(⟨1, 300000⟩ : FileInfo)]) ≤ 4 * (1 * 1024 * 1024)
    ∧ (∀ f ∈ [(⟨1, 300000⟩ : FileInfo), ⟨2, 300000⟩, ⟨3, 300000⟩, ⟨4, 300000⟩],
        f.mtime ≤ 100)
    ∧ 1 * 1024 * 1024 < totalSize [(⟨1, 300000⟩ : FileInfo), ⟨2, 300000⟩, ⟨3, 300000⟩, ⟨4, 300000⟩] :=
  ⟨by decide, by decide, by decide, by decide⟩

end NCCU
